import Mathlib

/-!
Verification of the guardrail-violation parsing and proxy-lifecycle logic of a
command-line chat client for a local LLM gateway (source files
`src/client.py`, `src/chat.py`, `src/proxy_manager.py`).

Python runtime values that can appear in decoded HTTP error bodies are
embedded as the inductive type `PyVal`; operations that can raise a Python
exception are modelled in `Except PyExc`.  Dictionaries are association lists
with string keys (Python dicts produced by `json.loads` have unique keys, and
lookup returns the first match).  Python `float` is modelled as `ℚ`.
-/

/-- Python runtime values as produced by `json.loads` / `ast.literal_eval`. -/
inductive PyVal where
  | none
  | bool (b : Bool)
  | int (n : Int)
  | float (q : ℚ)
  | str (s : String)
  | list (xs : List PyVal)
  | dict (kvs : List (String × PyVal))

/-- The Python exceptions that the parsing pipeline can raise. -/
inductive PyExc where
  | typeError
  | attributeError
  | keyError
  | indexError

/-- First-match lookup in a string-keyed dictionary. -/
def dictLookup (kvs : List (String × PyVal)) (k : String) : Option PyVal :=
  match kvs with
  | [] => Option.none
  | (k1, v1) :: rest => if k1 = k then Option.some v1 else dictLookup rest k

/-- Python `k in d` for a dict `d` (key membership). -/
def hasKey (kvs : List (String × PyVal)) (k : String) : Bool :=
  match kvs with
  | [] => false
  | (k1, _) :: rest => (k1 = k) || hasKey rest k

/-- Python `d.get(k, default)` on a dict. -/
def dictGet (kvs : List (String × PyVal)) (k : String) (default : PyVal) : PyVal :=
  (dictLookup kvs k).getD default

/-- Python truthiness (`bool(v)`). -/
def pyTruthy : PyVal → Bool
  | .none => false
  | .bool b => b
  | .int n => n != 0
  | .float q => q != 0
  | .str s => s != ""
  | .list xs => !xs.isEmpty
  | .dict kvs => !kvs.isEmpty

/-- `isinstance(v, dict)`. -/
def isDict : PyVal → Bool
  | .dict _ => true
  | _ => false

/-- Boolean prefix test on character lists (used to model Python `in` on
strings and substring checks in theorem statements). -/
def listHasPre (sub : List Char) (l : List Char) : Bool :=
  match sub, l with
  | [], _ => true
  | _ :: _, [] => false
  | a :: as, b :: bs => (a == b) && listHasPre as bs

/-- Boolean contiguous-segment (substring) test on character lists. -/
def listHasSeg (sub : List Char) : List Char → Bool
  | [] => listHasPre sub []
  | b :: bs => listHasPre sub (b :: bs) || listHasSeg sub bs

/-- Boolean suffix test on character lists. -/
def listHasSuf (sub : List Char) (l : List Char) : Bool :=
  listHasPre sub.reverse l.reverse

/-- `sub` occurs as a contiguous substring of `s`. -/
def StrContains (s sub : String) : Prop :=
  listHasSeg sub.data s.data = true

/-- `s` ends with `sub`. -/
def StrEndsWith (s sub : String) : Prop :=
  listHasSuf sub.data s.data = true

instance (s sub : String) : Decidable (StrContains s sub) :=
  inferInstanceAs (Decidable (listHasSeg sub.data s.data = true))

instance (s sub : String) : Decidable (StrEndsWith s sub) :=
  inferInstanceAs (Decidable (listHasSuf sub.data s.data = true))

/-- Python string equality between a Lean string and a `PyVal` (for `in` on
lists: a string compares equal only to an equal string). -/
def pyEqStr (k : String) : PyVal → Bool
  | .str t => k == t
  | _ => false

/-- Python `v.get(key, default)`: only dicts have `.get`; every other value
raises `AttributeError`. -/
def pyGet (v : PyVal) (key : String) (default : PyVal) : Except PyExc PyVal :=
  match v with
  | .dict kvs => .ok (dictGet kvs key default)
  | _ => .error .attributeError

/-- Python `key in v` (`str` containment test): dict keys, list membership,
substring on strings; `in` on scalars raises `TypeError`. -/
def pyContains (v : PyVal) (key : String) : Except PyExc Bool :=
  match v with
  | .dict kvs => .ok (hasKey kvs key)
  | .list xs => .ok (xs.any (pyEqStr key))
  | .str s => .ok (listHasSeg key.data s.data)
  | _ => .error .typeError

/-- Python `for x in v`: lists yield elements, strings yield one-character
strings, dicts yield their keys; scalars raise `TypeError`. -/
def pyIter (v : PyVal) : Except PyExc (List PyVal) :=
  match v with
  | .list xs => .ok xs
  | .str s => .ok (s.data.map (fun c => PyVal.str (String.singleton c)))
  | .dict kvs => .ok (kvs.map (fun kv => PyVal.str kv.1))
  | _ => .error .typeError

/-- Python `v[0]`: head of a non-empty list (IndexError when empty), first
character of a non-empty string, `KeyError` on our string-keyed dicts,
`TypeError` on scalars. -/
def pySubscriptZero (v : PyVal) : Except PyExc PyVal :=
  match v with
  | .list (x :: _) => .ok x
  | .list [] => .error .indexError
  | .str s =>
    match s.data with
    | [] => .error .indexError
    | c :: _ => .ok (PyVal.str (String.singleton c))
  | .dict _ => .error .keyError
  | _ => .error .typeError

/-- Python `v.items()`: only dicts have `.items`. -/
def pyItems (v : PyVal) : Except PyExc (List (String × PyVal)) :=
  match v with
  | .dict kvs => .ok kvs
  | _ => .error .attributeError

/-- A single-quote character, used by `pyRepr`. -/
def squote : String := String.singleton (Char.ofNat 39)

/-- Decimal-ish rendering of a rational standing in for a Python float.
Python float `repr` is binary-float dependent; claims never depend on it. -/
def floatRepr (q : ℚ) : String :=
  if q.den = 1 then toString q.num ++ ".0" else toString q

mutual

/-- Python `repr(v)` (simplified: strings are single-quoted without escaping,
floats use `floatRepr`). -/
def pyRepr : PyVal → String
  | .none => "None"
  | .bool true => "True"
  | .bool false => "False"
  | .int n => toString n
  | .float q => floatRepr q
  | .str s => squote ++ s ++ squote
  | .list xs => "[" ++ pyReprJoin xs ++ "]"
  | .dict kvs => "\x7b" ++ pyReprJoinKV kvs ++ "\x7d"

/-- Comma-joined `repr`s of list elements. -/
def pyReprJoin : List PyVal → String
  | [] => ""
  | [x] => pyRepr x
  | x :: y :: rest => pyRepr x ++ ", " ++ pyReprJoin (y :: rest)

/-- Comma-joined `repr`s of dict entries. -/
def pyReprJoinKV : List (String × PyVal) → String
  | [] => ""
  | [(k, v)] => squote ++ k ++ squote ++ ": " ++ pyRepr v
  | (k, v) :: e :: rest =>
      squote ++ k ++ squote ++ ": " ++ pyRepr v ++ ", " ++ pyReprJoinKV (e :: rest)

end

/-- Python `str(v)`: identity on strings, `repr`-like otherwise. -/
def pyStr : PyVal → String
  | .str s => s
  | v => pyRepr v

/-!
## The error classes (`client.py` lines 160–243)
-/

/-- Embedding of the stored fields of `GuardrailViolationError` (`client.py`
lines 208–212).  Violations keep their Python values (`client.py` appends
whatever `detector.get("detector_type", "unknown")` returned). -/
structure GuardrailViolationError where
  message : String
  violations : List PyVal
  categories : List (String × PyVal)
  category_scores : List (String × PyVal)
  lakera_response : Option PyVal

/-- `GuardrailViolationError.__init__` (`client.py` lines 191–216): store the
arguments (with `or`-defaults already applied by the caller) and, when the
violation list is empty but categories are given, derive violations from the
truthy categories. -/
def mkGuardrailError (message : String) (violations : List PyVal)
    (categories : List (String × PyVal)) (category_scores : List (String × PyVal))
    (lakera_response : Option PyVal) : GuardrailViolationError :=
  let v :=
    if violations.isEmpty && !categories.isEmpty then
      (categories.filter (fun kv => pyTruthy kv.2)).map (fun kv => PyVal.str kv.1)
    else violations
  ⟨message, v, categories, category_scores, lakera_response⟩

/-!
## The violation parser inside `chat_completion` (`client.py` lines 70–143)
-/

/-- What the `status_code != 200` branch of `chat_completion` raises. -/
inductive Raised where
  | guardrail (e : GuardrailViolationError)
  | api (msg : String)

/-- The observable outcome of the error-handling branch: the structured
guardrail error, the generic `APIError`, or an exception escaping uncaught. -/
inductive ErrorOutcome where
  | guardrail (e : GuardrailViolationError)
  | apiError (msg : String)
  | uncaught (e : PyExc)

/-- The loop of `client.py` lines 82–85 (and 109–112): collect
`detector_type` (default `"unknown"`) of every detector whose `detected`
entry (default `False`) is truthy, in breakdown order. -/
def collectBreakdown : List PyVal → Except PyExc (List PyVal)
  | [] => .ok []
  | d :: ds =>
    match pyGet d "detected" (.bool false) with
    | .error e => .error e
    | .ok detected =>
      if pyTruthy detected then
        match pyGet d "detector_type" (.str "unknown") with
        | .error e => .error e
        | .ok dt =>
          match collectBreakdown ds with
          | .error e => .error e
          | .ok rest => .ok (dt :: rest)
      else collectBreakdown ds

/-- `client.py` lines 81–85: `breakdown = lakera_response.get("breakdown", [])`
then iterate it collecting detected detector types. -/
def extractViolationsFromLakera (lakeraResponse : PyVal) : Except PyExc (List PyVal) :=
  match pyGet lakeraResponse "breakdown" (.list []) with
  | .error e => .error e
  | .ok breakdown =>
    match pyIter breakdown with
    | .error e => .error e
    | .ok items => collectBreakdown items

/-- `client.py` lines 133–137: build the generic error-message text from the
decoded body (`error.message` for an error mapping, the string itself for an
error string, `str()` of the value otherwise). -/
def genericErrorMsg (errorData : PyVal) : Except PyExc String :=
  match pyGet errorData "error" (.dict []) with
  | .error e => .error e
  | .ok em =>
    match em with
    | .dict kvs => .ok (pyStr (dictGet kvs "message" (.str (pyRepr (.dict kvs)))))
    | .str s => .ok s
    | _ =>
      match pyGet errorData "error" (.str "Unknown error") with
      | .error e => .error e
      | .ok em2 => .ok (pyStr em2)

/-- The fixed message of every raised `GuardrailViolationError`
(`client.py` line 127). -/
def flaggedMsg : String := "LiteLLM has flagged this message due to policy violations"

/-- `client.py` lines 124–139: raise `GuardrailViolationError` when violations
were found, else raise the generic `APIError` built from the body and the
HTTP status code. -/
def finishParse (status : Nat) (errorData : PyVal) (lakeraResponse : Option PyVal)
    (violations : List PyVal) : Except PyExc Raised :=
  if violations.isEmpty then
    match genericErrorMsg errorData with
    | .error e => .error e
    | .ok m => .ok (.api ("API error (" ++ toString status ++ "): " ++ m))
  else
    .ok (.guardrail (mkGuardrailError flaggedMsg violations [] [] lakeraResponse))

/-- `client.py` lines 93–112 (Format 2, the nested-string form): when the
`error.message` value is a string, try `json.loads` then `ast.literal_eval`;
if the result is a truthy dict holding the direct-form key, extract its
breakdown violations.  Returns the `(lakera_response, violations)` the block
leaves behind (unchanged `(Option.none, [])` when nothing applies). -/
def tryNestedForm (errorMsg : PyVal) (jsonLoads literalEval : String → Option PyVal) :
    Except PyExc (Option PyVal × List PyVal) :=
  let parsed : Option PyVal :=
    match errorMsg with
    | .str s =>
      match jsonLoads s with
      | Option.some p => Option.some p
      | Option.none => literalEval s
    | _ => Option.none
  match parsed with
  | Option.some p =>
    if pyTruthy p && isDict p then
      match pyContains p "lakera_guardrail_response" with
      | .error e => .error e
      | .ok true =>
        match pyGet p "lakera_guardrail_response" (.dict []) with
        | .error e => .error e
        | .ok lr =>
          match extractViolationsFromLakera lr with
          | .error e => .error e
          | .ok vs => .ok (Option.some lr, vs)
      | .ok false => .ok (Option.none, ([] : List PyVal))
    else .ok (Option.none, ([] : List PyVal))
  | Option.none => .ok (Option.none, ([] : List PyVal))

/-- `client.py` lines 114–122 (Format 3, the legacy categorical form), entered
with `error_obj` a dict and no violations so far: read `lakera_ai_response`
(reassigning `lakera_response` even when it is falsy), and when its first
result is flagged take the truthy category keys as the violation list;
`category_scores` is read into a local that the source never uses
afterwards.  Returns the `(lakera_response, violations)` the block leaves
behind. -/
def tryLegacyForm (eokvs : List (String × PyVal)) :
    Except PyExc (Option PyVal × List PyVal) :=
  let lr3 := dictGet eokvs "lakera_ai_response" (.dict [])
  if pyTruthy lr3 then
    match pyGet lr3 "results" (.list []) with
    | .error e => .error e
    | .ok results =>
      if pyTruthy results then
        match pySubscriptZero results with
        | .error e => .error e
        | .ok r0 =>
          match pyGet r0 "flagged" .none with
          | .error e => .error e
          | .ok flagged =>
            if pyTruthy flagged then
              match pyGet r0 "categories" (.dict []) with
              | .error e => .error e
              | .ok categories =>
                match pyGet r0 "category_scores" (.dict []) with
                | .error e => .error e
                | .ok _categoryScores =>
                  match pyItems categories with
                  | .error e => .error e
                  | .ok items =>
                    .ok (Option.some lr3,
                      (items.filter (fun kv => pyTruthy kv.2)).map
                        (fun kv => PyVal.str kv.1))
            else .ok (Option.some lr3, [])
      else .ok (Option.some lr3, [])
  else .ok (Option.some lr3, [])

/-- `client.py` lines 74–139: the three-format violation parser run on the
JSON-decoded error body.  `jsonLoads` and `literalEval` model `json.loads`
and `ast.literal_eval` on the nested `error.message` string (returning
`Option.none` where the Python functions raise a decode error). -/
def parseErrorData (status : Nat) (errorData : PyVal)
    (jsonLoads literalEval : String → Option PyVal) : Except PyExc Raised :=
  match pyContains errorData "lakera_guardrail_response" with
  | .error e => .error e
  | .ok true =>
    match pyGet errorData "lakera_guardrail_response" (.dict []) with
    | .error e => .error e
    | .ok lr =>
      match extractViolationsFromLakera lr with
      | .error e => .error e
      | .ok violations => finishParse status errorData (Option.some lr) violations
  | .ok false =>
    match pyContains errorData "error" with
    | .error e => .error e
    | .ok false => finishParse status errorData Option.none []
    | .ok true =>
      match pyGet errorData "error" (.dict []) with
      | .error e => .error e
      | .ok errorObj =>
        let errorMsg : PyVal :=
          match errorObj with
          | .dict eokvs => dictGet eokvs "message" (.str "")
          | _ => .str (pyStr errorObj)
        match tryNestedForm errorMsg jsonLoads literalEval with
        | .error e => .error e
        | .ok (lr2, v2) =>
          match errorObj with
          | .dict eokvs =>
            if v2.isEmpty then
              match tryLegacyForm eokvs with
              | .error e => .error e
              | .ok (lr3, v3) => finishParse status errorData lr3 v3
            else finishParse status errorData lr2 v2
          | _ => finishParse status errorData lr2 v2

/-- The whole `status_code != 200` branch of `chat_completion` (`client.py`
lines 70–143): `body = Option.none` models `response.json()` raising
`JSONDecodeError`; `bodyText` is `response.text`.  The `except` clause
catches only `json.JSONDecodeError`, `KeyError` and `AttributeError` (line
142), re-raises guardrail violations, and lets any other exception escape. -/
def chatCompletionError (status : Nat) (body : Option PyVal) (bodyText : String)
    (jsonLoads literalEval : String → Option PyVal) : ErrorOutcome :=
  match body with
  | Option.none => .apiError ("API error (" ++ toString status ++ "): " ++ bodyText)
  | Option.some errorData =>
    match parseErrorData status errorData jsonLoads literalEval with
    | .ok (.guardrail e) => .guardrail e
    | .ok (.api m) => .apiError m
    | .error .keyError => .apiError ("API error (" ++ toString status ++ "): " ++ bodyText)
    | .error .attributeError =>
      .apiError ("API error (" ++ toString status ++ "): " ++ bodyText)
    | .error e => .uncaught e

/-!
## Human-readable rendering (`client.py` lines 169–243)
-/

/-- The fixed lookup table `VIOLATION_NAMES` (`client.py` lines 170–189). -/
def VIOLATION_NAMES : List (String × String) :=
  [("moderated_content/crime", "Crime-related content"),
   ("moderated_content/hate", "Hate speech"),
   ("moderated_content/profanity", "Profanity"),
   ("moderated_content/sexual", "Sexual content"),
   ("moderated_content/violence", "Violence"),
   ("moderated_content/weapons", "Weapons"),
   ("pii/address", "Personal address"),
   ("pii/credit_card", "Credit card number"),
   ("pii/email", "Email address"),
   ("pii/iban_code", "IBAN code"),
   ("pii/ip_address", "IP address"),
   ("pii/name", "Personal name"),
   ("pii/phone_number", "Phone number"),
   ("pii/us_social_security_number", "Social Security Number"),
   ("prompt_attack", "Prompt injection attack"),
   ("jailbreak", "Jailbreak attempt"),
   ("prompt_injection", "Prompt injection"),
   ("unknown_links", "Unknown links")]

/-- First-match lookup in a string-to-string table. -/
def lookupName (tbl : List (String × String)) (k : String) : Option String :=
  match tbl with
  | [] => Option.none
  | (k1, v1) :: rest => if k1 = k then Option.some v1 else lookupName rest k

/-- Python `str.title()` on ASCII input: uppercase an alphabetic character
that follows a non-alphabetic one, lowercase the rest. -/
def titleChars : List Char → Bool → List Char
  | [], _ => []
  | c :: cs, prevAlpha =>
    (if c.isAlpha then (if prevAlpha then c.toLower else c.toUpper) else c) ::
      titleChars cs c.isAlpha

/-- Python `s.title()`. -/
def pyTitle (s : String) : String := ⟨titleChars s.data false⟩

/-- `GuardrailViolationError._format_violation_name` on a string code
(`client.py` lines 218–225): known codes map through `VIOLATION_NAMES`;
unknown codes get separators replaced and are title-cased. -/
def formatViolationName (s : String) : String :=
  match lookupName VIOLATION_NAMES s with
  | Option.some n => n
  | Option.none => pyTitle ((s.replace "_" " ").replace "/" " - ")

/-- `_format_violation_name` on an arbitrary stored violation value: non-string
hashable values miss the table and then fail on `.replace`
(`AttributeError`); unhashable values fail already on `in VIOLATION_NAMES`
(`TypeError`). -/
def pyFormatViolationName : PyVal → Except PyExc String
  | .str s => .ok (formatViolationName s)
  | .list _ => .error .typeError
  | .dict _ => .error .typeError
  | _ => .error .attributeError

/-- Python `.1%` format-spec rendering on the rational model of the float:
percentage with one decimal digit (rounding modelled by `round`). -/
def formatPercent (q : ℚ) : String :=
  let n : ℤ := round (q * 1000)
  toString (n / 10) ++ "." ++ toString (n % 10).natAbs ++ "%"

/-- The percent-format applied to a stored score value: numeric values
(floats, ints, bools) format; other values raise. -/
def formatPercentVal : PyVal → Except PyExc String
  | .float q => .ok (formatPercent q)
  | .int n => .ok (formatPercent (n : ℚ))
  | .bool b => .ok (formatPercent (if b then 1 else 0))
  | _ => .error .typeError

/-- Python `violation in self.category_scores` followed by the subscript
(`client.py` lines 237–238): string keys look up their score; unhashable
violation values raise `TypeError`; other hashables are simply absent. -/
def scoreFor (scores : List (String × PyVal)) (v : PyVal) : Except PyExc (Option PyVal) :=
  match v with
  | .str s => .ok (dictLookup scores s)
  | .list _ => .error .typeError
  | .dict _ => .error .typeError
  | _ => .ok Option.none

/-- The loop of `__str__` (`client.py` lines 233–239): one bullet line per
violation, with the confidence appended when `category_scores` is non-empty
and holds the violation. -/
def renderViolLines (scores : List (String × PyVal)) : List PyVal → Except PyExc String
  | [] => .ok ""
  | v :: vs =>
    match pyFormatViolationName v with
    | .error e => .error e
    | .ok name =>
      match (if scores.isEmpty then .ok Option.none else scoreFor scores v :
             Except PyExc (Option PyVal)) with
      | .error e => .error e
      | .ok Option.none =>
        match renderViolLines scores vs with
        | .error e => .error e
        | .ok rest => .ok ("\n  • " ++ name ++ rest)
      | .ok (Option.some sv) =>
        match formatPercentVal sv with
        | .error e => .error e
        | .ok pct =>
          match renderViolLines scores vs with
          | .error e => .error e
          | .ok rest => .ok ("\n  • " ++ name ++ " (confidence: " ++ pct ++ ")" ++ rest)

/-- The fixed remediation sentence ending every rendered message
(`client.py` line 241). -/
def remediation : String :=
  "\n\nPlease revise your message to comply with the content safety policy."

/-- `GuardrailViolationError.__str__` (`client.py` lines 227–243). -/
def guardrailStr (e : GuardrailViolationError) : Except PyExc String :=
  match (if e.violations.isEmpty then .ok "" else
         match renderViolLines e.category_scores e.violations with
         | .error ex => .error ex
         | .ok lines => .ok ("\n\nDetected policy violations:" ++ lines) :
         Except PyExc String) with
  | .error ex => .error ex
  | .ok body => .ok (e.message ++ body ++ remediation)

/-!
## The chat session (`chat.py` lines 43–89)
-/

/-- Outcome of one `ProxyClient.chat_completion` call as seen by the session
(success value, or one of the typed errors it raises). -/
inductive ClientResult where
  | success (resp : PyVal)
  | guardrailViolation (e : GuardrailViolationError)
  | apiError (msg : String)

/-- What `ChatSession.chat` itself does: returns the reply or raises. -/
inductive ChatOutcome where
  | reply (content : PyVal)
  | guardrailRaised (e : GuardrailViolationError)
  | apiRaised (msg : String)
  | excRaised (e : PyExc)

/-- Result of extracting the assistant message from a success response. -/
inductive ExtractResult where
  | content (c : PyVal)
  | apiErr (msg : String)
  | exc (e : PyExc)

/-- `chat.py` lines 71–78: pull `choices[0].message.content` out of the
response, raising `APIError` on empty choices or empty content. -/
def extractAssistant (resp : PyVal) : ExtractResult :=
  match pyGet resp "choices" (.list []) with
  | .error e => .exc e
  | .ok choices =>
    if !pyTruthy choices then .apiErr "No response choices in API response"
    else
      match pySubscriptZero choices with
      | .error e => .exc e
      | .ok c0 =>
        match pyGet c0 "message" (.dict []) with
        | .error e => .exc e
        | .ok msg =>
          match pyGet msg "content" (.str "") with
          | .error e => .exc e
          | .ok content =>
            if !pyTruthy content then .apiErr "Empty response from assistant"
            else .content content

/-- `chat.py` lines 57–59: add the system message once, when it is truthy and
no system turn is in the history yet. -/
def addSystemMsg (messages : List (String × PyVal)) (systemMessage : Option String) :
    List (String × PyVal) :=
  match systemMessage with
  | Option.some s =>
    if (s != "") && !(messages.any (fun m => m.1 == "system")) then
      messages ++ [("system", .str s)]
    else messages
  | Option.none => messages

/-- `self.messages and self.messages[-1].get("role") == "user"`
(`chat.py` line 87). -/
def lastIsUser (l : List (String × PyVal)) : Bool :=
  match l.getLast? with
  | Option.some (r, _) => r == "user"
  | Option.none => false

/-- `ChatSession.chat` (`chat.py` lines 43–89) on a message history of
`(role, content)` pairs: add system/user turns, call the client (modelled by
`call` applied to the history sent), and on a `GuardrailViolationError` pop
the just-appended user turn before re-raising.  Other errors propagate with
the history unchanged; a success appends the assistant turn. -/
def sessionChat (messages : List (String × PyVal)) (userMessage : String)
    (systemMessage : Option String) (call : List (String × PyVal) → ClientResult) :
    List (String × PyVal) × ChatOutcome :=
  let m1 := addSystemMsg messages systemMessage
  let m2 := m1 ++ [("user", .str userMessage)]
  match call m2 with
  | .success resp =>
    match extractAssistant resp with
    | .content c => (m2 ++ [("assistant", c)], .reply c)
    | .apiErr m => (m2, .apiRaised m)
    | .exc e => (m2, .excRaised e)
  | .guardrailViolation e =>
    ((if lastIsUser m2 then m2.dropLast else m2), .guardrailRaised e)
  | .apiError m => (m2, .apiRaised m)

/-!
## Health checks and proxy startup (`client.py` 147–157, `proxy_manager.py`)
-/

/-- Result of the `requests.get` call against the health endpoint: a response
with a status code, or a network-level failure. -/
inductive HttpResult where
  | response (status : Nat)
  | connectionError
  | timedOut

/-- `ProxyClient.health_check` (`client.py` lines 147–157): status 200 means
healthy, any `RequestException` (connection error, timeout) means false. -/
def healthCheck : HttpResult → Bool
  | .response s => s == 200
  | .connectionError => false
  | .timedOut => false

/-- `ProxyManager.is_running` (`proxy_manager.py` lines 38–48): same check,
network failures caught and turned into `false`. -/
def isRunning : HttpResult → Bool
  | .response s => s == 200
  | .connectionError => false
  | .timedOut => false

/-- One iteration of the `wait_for_ready` poll loop (`proxy_manager.py` lines
98–123): whether `poll()` reported the process exited, and whether the
health check succeeded this round.  Captured output only feeds logging. -/
structure IterObs where
  exited : Bool
  healthy : Bool

/-- Environment of one `start()` call: the initial `is_running()` answer, the
config-file existence check, and the poll-loop observations (the `timeout`
bound is modelled by the length of this list). -/
structure StartEnv where
  alreadyRunning : Bool
  configExists : Bool
  pollIters : List IterObs

/-- Observable result of `start()`: the returned boolean, whether a process
was spawned, and whether the failure path called `stop()`. -/
structure StartResult where
  ok : Bool
  spawned : Bool
  stopCalled : Bool

/-- The poll loop of `start()` (`proxy_manager.py` lines 98–123): a process
exit breaks to the failure path; a passing health check returns success;
otherwise sleep and retry until the timeout window is exhausted. -/
def startWaitLoop : List IterObs → Bool
  | [] => false
  | ob :: rest =>
    if ob.exited then false
    else if ob.healthy then true
    else startWaitLoop rest

/-- `ProxyManager.start` (`proxy_manager.py` lines 50–143): short-circuit when
already running, fail fast on a missing config file, otherwise spawn and
(when `wait_for_ready`) run the poll loop, calling `stop()` on timeout. -/
def managerStart (env : StartEnv) (waitForReady : Bool) : StartResult :=
  if env.alreadyRunning then ⟨true, false, false⟩
  else if !env.configExists then ⟨false, false, false⟩
  else if waitForReady then
    if startWaitLoop env.pollIters then ⟨true, true, false⟩
    else ⟨false, true, true⟩
  else ⟨true, true, false⟩

/-!
## Claim-side specification of the direct-form extraction
-/

/-- A well-formed breakdown entry as described by the spec: a mapping with a
boolean `detected` and a string `detector_type`. -/
def WFDetector (e : PyVal) : Prop :=
  ∃ ekvs b s, e = PyVal.dict ekvs ∧
    dictLookup ekvs "detected" = Option.some (.bool b) ∧
    dictLookup ekvs "detector_type" = Option.some (.str s)

/-- Direct-form extraction as the spec words it: the `detector_type` values of the
entries whose `detected` is `true`, in breakdown order. -/
def specDirectViolations : List PyVal → List String
  | [] => []
  | PyVal.dict ekvs :: rest =>
    (match dictLookup ekvs "detected", dictLookup ekvs "detector_type" with
     | Option.some (PyVal.bool true), Option.some (PyVal.str s) => [s]
     | _, _ => []) ++ specDirectViolations rest
  | _ :: rest => specDirectViolations rest

/-!
## Supporting lemmas
-/

theorem dictLookup_hasKey {kvs : List (String × PyVal)} {k : String} {v : PyVal}
    (h : dictLookup kvs k = Option.some v) : hasKey kvs k = true := by
  induction kvs with
  | nil => simp [dictLookup] at h
  | cons kv rest ih =>
    obtain ⟨k1, v1⟩ := kv
    by_cases hk : k1 = k
    · simp [hasKey, hk]
    · simp only [dictLookup, if_neg hk] at h
      simp [hasKey, hk, ih h]

theorem dictLookup_mem {kvs : List (String × PyVal)} {k : String} {v : PyVal}
    (h : dictLookup kvs k = Option.some v) : (k, v) ∈ kvs := by
  induction kvs with
  | nil => simp [dictLookup] at h
  | cons kv rest ih =>
    obtain ⟨k1, v1⟩ := kv
    by_cases hk : k1 = k
    · subst hk
      simp [dictLookup] at h
      simp [h]
    · simp only [dictLookup, if_neg hk] at h
      exact List.mem_cons_of_mem _ (ih h)

theorem dictLookup_ne_nil {kvs : List (String × PyVal)} {k : String} {v : PyVal}
    (h : dictLookup kvs k = Option.some v) : kvs ≠ [] := by
  intro hnil
  subst hnil
  simp [dictLookup] at h

/-- The breakdown loop computes exactly the extraction worded by the spec on well-formed
entries. -/
theorem collectBreakdown_wf (entries : List PyVal)
    (h : ∀ e ∈ entries, WFDetector e) :
    collectBreakdown entries = .ok ((specDirectViolations entries).map PyVal.str) := by
  induction entries with
  | nil => rfl
  | cons d ds ih =>
    obtain ⟨ekvs, b, s, rfl, hdet, hdt⟩ := h d (List.mem_cons_self d ds)
    have ih' := ih (fun e he => h e (List.mem_cons_of_mem _ he))
    cases b with
    | true =>
      simp [collectBreakdown, pyGet, dictGet, hdet, hdt, pyTruthy, specDirectViolations, ih']
    | false =>
      simp [collectBreakdown, pyGet, dictGet, hdet, hdt, pyTruthy, specDirectViolations, ih']

theorem listHasPre_append_self (s t : List Char) : listHasPre s (s ++ t) = true := by
  induction s with
  | nil => rfl
  | cons a as ih => simp [listHasPre, ih]

theorem listHasPre_mono {sub l : List Char} (t : List Char)
    (h : listHasPre sub l = true) : listHasPre sub (l ++ t) = true := by
  induction sub generalizing l with
  | nil => rfl
  | cons a as ih =>
    cases l with
    | nil => simp [listHasPre] at h
    | cons b bs =>
      simp [listHasPre] at h ⊢
      exact ⟨h.1, ih h.2⟩

theorem listHasSeg_of_pre {sub l : List Char} (h : listHasPre sub l = true) :
    listHasSeg sub l = true := by
  cases l with
  | nil => simpa [listHasSeg] using h
  | cons b bs => simp [listHasSeg, h]

theorem listHasSeg_append_right {sub t : List Char} (l : List Char)
    (h : listHasSeg sub t = true) : listHasSeg sub (l ++ t) = true := by
  induction l with
  | nil => simpa
  | cons b bs ih =>
    simp only [List.cons_append, listHasSeg, Bool.or_eq_true]
    exact Or.inr ih

theorem listHasSeg_append_left {sub l : List Char} (t : List Char)
    (h : listHasSeg sub l = true) : listHasSeg sub (l ++ t) = true := by
  induction l with
  | nil =>
    cases sub with
    | nil => exact listHasSeg_of_pre rfl
    | cons a as => simp [listHasSeg, listHasPre] at h
  | cons b bs ih =>
    simp only [listHasSeg, Bool.or_eq_true] at h
    simp only [List.cons_append, listHasSeg, Bool.or_eq_true]
    cases h with
    | inl hp => exact Or.inl (by simpa using listHasPre_mono t hp)
    | inr hs => exact Or.inr (ih hs)

theorem strData_append (a b : String) : (a ++ b).data = a.data ++ b.data :=
  String.data_append a b

theorem strContains_parts (a sub b : String) : StrContains (a ++ sub ++ b) sub := by
  unfold StrContains
  have h : (a ++ sub ++ b).data = a.data ++ (sub.data ++ b.data) := by
    simp [strData_append]
  rw [h]
  exact listHasSeg_append_right _ (listHasSeg_of_pre (listHasPre_append_self _ _))

theorem strContains_append_right {t sub : String} (l : String) (h : StrContains t sub) :
    StrContains (l ++ t) sub := by
  unfold StrContains at h ⊢
  rw [strData_append]
  exact listHasSeg_append_right _ h

theorem strContains_append_left {l sub : String} (t : String) (h : StrContains l sub) :
    StrContains (l ++ t) sub := by
  unfold StrContains at h ⊢
  rw [strData_append]
  exact listHasSeg_append_left _ h

theorem strEndsWith_append (x rem : String) : StrEndsWith (x ++ rem) rem := by
  unfold StrEndsWith listHasSuf
  rw [strData_append, List.reverse_append]
  exact listHasPre_append_self _ _

/-!
## Claim theorems
-/

/-- Claim C1: for every error body in the direct form (a top-level
`lakera_guardrail_response` key whose mapping holds a `breakdown` sequence of
entries with `detector_type` and boolean `detected`), the violation parser
inside `chat_completion` extracts exactly the `detector_type` values of the
entries where `detected` is true, in breakdown order (stated here for the
raising case, where at least one entry is detected). -/
theorem directFormExtraction (status : Nat) (kvs lrkvs : List (String × PyVal))
    (entries : List PyVal) (bodyText : String) (jl le : String → Option PyVal)
    (hlr : dictLookup kvs "lakera_guardrail_response" = Option.some (.dict lrkvs))
    (hbd : dictLookup lrkvs "breakdown" = Option.some (.list entries))
    (hwf : ∀ e ∈ entries, WFDetector e)
    (hne : specDirectViolations entries ≠ []) :
    chatCompletionError status (Option.some (.dict kvs)) bodyText jl le =
      .guardrail ⟨flaggedMsg, (specDirectViolations entries).map PyVal.str, [], [],
        Option.some (.dict lrkvs)⟩ := by
  have hk : hasKey kvs "lakera_guardrail_response" = true := dictLookup_hasKey hlr
  have hcb := collectBreakdown_wf entries hwf
  obtain ⟨v0, vs0, hsp⟩ : ∃ v0 vs0, specDirectViolations entries = v0 :: vs0 := by
    cases h : specDirectViolations entries with
    | nil => exact absurd h hne
    | cons a as => exact ⟨a, as, rfl⟩
  simp [chatCompletionError, parseErrorData, pyContains, hk, pyGet, dictGet, hlr,
    extractViolationsFromLakera, hbd, pyIter, hcb, hsp, finishParse, mkGuardrailError]

/-- Witness for C1 at the scenario input of the spec (one detected, one undetected
entry). -/
theorem directFormExtraction_witness :
    chatCompletionError 400 (Option.some (.dict [("lakera_guardrail_response", .dict
      [("breakdown", .list
        [.dict [("detector_type", .str "pii/email"), ("detected", .bool true)],
         .dict [("detector_type", .str "jailbreak"), ("detected", .bool false)]])])]))
      "t" (fun _ => Option.none) (fun _ => Option.none) =
      .guardrail ⟨flaggedMsg, [.str "pii/email"], [], [], Option.some (.dict
        [("breakdown", .list
          [.dict [("detector_type", .str "pii/email"), ("detected", .bool true)],
           .dict [("detector_type", .str "jailbreak"), ("detected", .bool false)]])])⟩ := by
  exact directFormExtraction 400
    [("lakera_guardrail_response", .dict
      [("breakdown", .list
        [.dict [("detector_type", .str "pii/email"), ("detected", .bool true)],
         .dict [("detector_type", .str "jailbreak"), ("detected", .bool false)]])])]
    [("breakdown", .list
      [.dict [("detector_type", .str "pii/email"), ("detected", .bool true)],
       .dict [("detector_type", .str "jailbreak"), ("detected", .bool false)]])]
    [.dict [("detector_type", .str "pii/email"), ("detected", .bool true)],
     .dict [("detector_type", .str "jailbreak"), ("detected", .bool false)]]
    "t" (fun _ => Option.none) (fun _ => Option.none) rfl rfl
    (by
      intro e he
      simp only [List.mem_cons, List.not_mem_nil, or_false] at he
      rcases he with rfl | rfl
      · exact ⟨_, true, "pii/email", rfl, rfl, rfl⟩
      · exact ⟨_, false, "jailbreak", rfl, rfl, rfl⟩)
    (by decide)

/-- Claim C10: when the body contains the top-level direct-form key but its
(well-formed) breakdown has no detected entry, `chat_completion` raises the
generic `APIError` built from the body, and never attempts the nested-string
or legacy forms — the `error` field, whatever it holds, only feeds the
generic message. -/
theorem directFormPrecedence (status : Nat) (kvs lrkvs : List (String × PyVal))
    (entries : List PyVal) (bodyText gm : String) (jl le : String → Option PyVal)
    (hlr : dictLookup kvs "lakera_guardrail_response" = Option.some (.dict lrkvs))
    (hbd : dictLookup lrkvs "breakdown" = Option.some (.list entries))
    (hwf : ∀ e ∈ entries, WFDetector e)
    (hempty : specDirectViolations entries = [])
    (hgm : genericErrorMsg (.dict kvs) = .ok gm) :
    chatCompletionError status (Option.some (.dict kvs)) bodyText jl le =
      .apiError ("API error (" ++ toString status ++ "): " ++ gm) := by
  have hk : hasKey kvs "lakera_guardrail_response" = true := dictLookup_hasKey hlr
  have hcb := collectBreakdown_wf entries hwf
  simp [chatCompletionError, parseErrorData, pyContains, hk, pyGet, dictGet, hlr,
    extractViolationsFromLakera, hbd, pyIter, hcb, hempty, finishParse, hgm]

/-- Witness for C10: the `error.message` of the body would decode (via the supplied
decoder) to a violating direct-form payload, and its `error.lakera_ai_response`
is a flagged legacy payload — yet the result is the generic `APIError`,
because the top-level direct-form key with no detected entry takes
precedence. -/
theorem directFormPrecedence_witness :
    chatCompletionError 418 (Option.some (.dict
      [("lakera_guardrail_response", .dict [("breakdown", .list
        [.dict [("detector_type", .str "pii/email"), ("detected", .bool false)]])]),
       ("error", .dict
        [("message", .str "J"),
         ("lakera_ai_response", .dict [("results", .list
           [.dict [("flagged", .bool true),
                   ("categories", .dict [("hate", .bool true)])]])])])]))
      "t"
      (fun s => if s = "J" then Option.some (.dict [("lakera_guardrail_response", .dict
        [("breakdown", .list
          [.dict [("detector_type", .str "x"), ("detected", .bool true)]])])])
        else Option.none)
      (fun _ => Option.none) =
      .apiError "API error (418): J" := by
  exact directFormPrecedence 418
    [("lakera_guardrail_response", .dict [("breakdown", .list
      [.dict [("detector_type", .str "pii/email"), ("detected", .bool false)]])]),
     ("error", .dict
      [("message", .str "J"),
       ("lakera_ai_response", .dict [("results", .list
         [.dict [("flagged", .bool true),
                 ("categories", .dict [("hate", .bool true)])]])])])]
    [("breakdown", .list
      [.dict [("detector_type", .str "pii/email"), ("detected", .bool false)]])]
    [.dict [("detector_type", .str "pii/email"), ("detected", .bool false)]]
    "t" "J"
    (fun s => if s = "J" then Option.some (.dict [("lakera_guardrail_response", .dict
      [("breakdown", .list
        [.dict [("detector_type", .str "x"), ("detected", .bool true)]])])])
      else Option.none)
    (fun _ => Option.none) rfl rfl
    (by
      intro e he
      simp only [List.mem_cons, List.not_mem_nil, or_false] at he
      rcases he with rfl
      exact ⟨_, false, "pii/email", rfl, rfl, rfl⟩)
    rfl rfl

/-- Claim C2 (code bug): the spec requires every decoding failure to fall
through to a structured verdict or a generic error, but the `except` clause
at `client.py` line 142 omits `TypeError`: a decoded body whose `breakdown`
is a non-iterable value makes the `for` loop at line 82 raise an uncaught
`TypeError` that escapes `chat_completion`. -/
theorem breakdownTypeErrorUncaught :
    chatCompletionError 400 (Option.some (.dict [("lakera_guardrail_response",
      .dict [("breakdown", .int 0)])])) "body text"
      (fun _ => Option.none) (fun _ => Option.none) =
      .uncaught .typeError := rfl

/-- Claim C9: both health checks return `true` exactly when the GET to the
health endpoint yields status 200, and every network-level failure
(connection error, timeout) yields `false` instead of an exception
(`client.py` lines 147–157, `proxy_manager.py` lines 38–48). -/
theorem healthChecksBoolean (r : HttpResult) :
    (healthCheck r = true ↔ r = .response 200) ∧
    (isRunning r = true ↔ r = .response 200) ∧
    healthCheck .connectionError = false ∧ healthCheck .timedOut = false ∧
    isRunning .connectionError = false ∧ isRunning .timedOut = false := by
  refine ⟨?_, ?_, rfl, rfl, rfl, rfl⟩ <;>
    cases r <;> simp [healthCheck, isRunning]

/-- Claim C8: `start()` invoked while the gateway is already running (per the
initial health check) returns success immediately, spawns no process and
calls no cleanup, regardless of `wait_for_ready` and of the timeout window
(`proxy_manager.py` lines 60–62). -/
theorem startShortCircuit (env : StartEnv) (waitForReady : Bool)
    (h : env.alreadyRunning = true) :
    managerStart env waitForReady = ⟨true, false, false⟩ := by
  simp [managerStart, h]

/-- Witness for C8: already running, `wait_for_ready = false`, empty poll
window, config file absent — still immediate success without a spawn. -/
theorem startShortCircuit_witness :
    managerStart ⟨true, false, []⟩ false = ⟨true, false, false⟩ :=
  startShortCircuit ⟨true, false, []⟩ false rfl

/-- Claim C5: when the client call raises a guardrail-violation error,
`ChatSession.chat` removes the just-submitted user turn, leaving the history
exactly as it was before the user turn was appended (with the optional
system turn retained), so no user turn the model never safely answered is
added by the call (`chat.py` lines 57–62 and 85–89). -/
theorem guardrailPopsUserTurn (messages : List (String × PyVal)) (userMessage : String)
    (systemMessage : Option String) (call : List (String × PyVal) → ClientResult)
    (e : GuardrailViolationError)
    (hcall : call (addSystemMsg messages systemMessage ++ [("user", .str userMessage)]) =
      .guardrailViolation e) :
    sessionChat messages userMessage systemMessage call =
      (addSystemMsg messages systemMessage, .guardrailRaised e) := by
  simp only [sessionChat, hcall]
  rw [lastIsUser, List.getLast?_concat]
  simp [List.dropLast_concat]

/-- Witness for C5: a session with prior history and a fresh system message;
the client rejects the user turn, and the returned history is the prior
history plus only the system turn. -/
theorem guardrailPopsUserTurn_witness :
    sessionChat [("user", .str "hi"), ("assistant", .str "hello")] "secret things"
      (Option.some "be nice")
      (fun _ => .guardrailViolation ⟨flaggedMsg, [.str "pii/email"], [], [], Option.none⟩) =
      ([("user", .str "hi"), ("assistant", .str "hello"), ("system", .str "be nice")],
       .guardrailRaised ⟨flaggedMsg, [.str "pii/email"], [], [], Option.none⟩) := by
  exact guardrailPopsUserTurn [("user", .str "hi"), ("assistant", .str "hello")]
    "secret things" (Option.some "be nice")
    (fun _ => .guardrailViolation ⟨flaggedMsg, [.str "pii/email"], [], [], Option.none⟩)
    ⟨flaggedMsg, [.str "pii/email"], [], [], Option.none⟩ rfl

theorem hasKey_false_lookup {kvs : List (String × PyVal)} {k : String}
    (h : hasKey kvs k = false) : dictLookup kvs k = Option.none := by
  induction kvs with
  | nil => rfl
  | cons kv rest ih =>
    obtain ⟨k1, v1⟩ := kv
    simp only [hasKey, Bool.or_eq_false_iff, decide_eq_false_iff_not] at h
    simp only [dictLookup, if_neg h.1]
    exact ih h.2

theorem strContains_of_data {s sub : String} (pre post : List Char)
    (h : s.data = pre ++ (sub.data ++ post)) : StrContains s sub := by
  unfold StrContains
  rw [h]
  exact listHasSeg_append_right pre (listHasSeg_of_pre (listHasPre_append_self _ _))

theorem strContains_status (status : Nat) (sfx : String) :
    StrContains ("API error (" ++ toString status ++ "): " ++ sfx) (toString status) := by
  apply strContains_of_data "API error (".data ("): " ++ sfx).data
  simp [strData_append]

theorem strContains_suffix (a sfx : String) : StrContains (a ++ sfx) sfx := by
  apply strContains_of_data a.data []
  simp [strData_append]

/-- Counterexample to C10-unrelated part of claim C4 as stated: a decoded
body matching no form and holding no `error.message` yields a generic error
whose message contains the status code but not the raw body text — the raw
text is used only on the exception path (`client.py` line 143), not at lines
133–139. -/
theorem genericApiError_counterexample :
    chatCompletionError 500 (Option.some (.dict [("foo", .int 1)]))
      "\x7b\x22foo\x22: 1\x7d" (fun _ => Option.none) (fun _ => Option.none) =
      .apiError "API error (500): \x7b\x7d" ∧
    ¬ StrContains "API error (500): \x7b\x7d" "\x7b\x22foo\x22: 1\x7d" := by
  exact ⟨rfl, by decide⟩

/-- Claim C4 (amended): for non-200 responses whose decoded body matches no
violation form, `chat_completion` raises a generic `APIError` whose message
always contains the HTTP status code; the `error.message` text is included
when the `error` field is a mapping with a string message entry; an
error-as-string body contributes the string itself and an error-as-other
value its `str()`; when no `error` field is present the message ends with
the `str()` of an empty mapping — never with the raw body text, which only
appears on the caught exception path.  The four cases — no `error` key,
error-as-string, error-as-mapping (message absent, undecodable, or
decodable-but-benign, with any non-violating legacy mapping), and
error-as-other — cover every decoded dict body matching no form, each with
the nested and legacy attempts yielding no violations as the matching-no-form
hypothesis. -/
theorem genericApiError (status : Nat) (kvs eokvs : List (String × PyVal))
    (ev : PyVal) (bodyText es : String) (lr2a lr2b lr2c lr3 : Option PyVal)
    (jl le : String → Option PyVal)
    (hnl : hasKey kvs "lakera_guardrail_response" = false) :
    (hasKey kvs "error" = false →
      chatCompletionError status (Option.some (.dict kvs)) bodyText jl le =
        .apiError ("API error (" ++ toString status ++ "): " ++ "\x7b\x7d") ∧
      StrContains ("API error (" ++ toString status ++ "): " ++ "\x7b\x7d")
        (toString status)) ∧
    (dictLookup kvs "error" = Option.some (.str es) →
     tryNestedForm (.str es) jl le = .ok (lr2a, []) →
      chatCompletionError status (Option.some (.dict kvs)) bodyText jl le =
        .apiError ("API error (" ++ toString status ++ "): " ++ es) ∧
      StrContains ("API error (" ++ toString status ++ "): " ++ es) (toString status) ∧
      StrContains ("API error (" ++ toString status ++ "): " ++ es) es) ∧
    (dictLookup kvs "error" = Option.some (.dict eokvs) →
     tryNestedForm (dictGet eokvs "message" (.str "")) jl le = .ok (lr2b, []) →
     tryLegacyForm eokvs = .ok (lr3, []) →
      chatCompletionError status (Option.some (.dict kvs)) bodyText jl le =
        .apiError ("API error (" ++ toString status ++ "): " ++
          pyStr (dictGet eokvs "message" (.str (pyRepr (.dict eokvs))))) ∧
      StrContains ("API error (" ++ toString status ++ "): " ++
        pyStr (dictGet eokvs "message" (.str (pyRepr (.dict eokvs)))))
        (toString status) ∧
      (∀ ms, dictLookup eokvs "message" = Option.some (.str ms) →
        StrContains ("API error (" ++ toString status ++ "): " ++
          pyStr (dictGet eokvs "message" (.str (pyRepr (.dict eokvs))))) ms)) ∧
    (dictLookup kvs "error" = Option.some ev →
     (∀ ekv, ev ≠ PyVal.dict ekv) → (∀ s, ev ≠ PyVal.str s) →
     tryNestedForm (.str (pyStr ev)) jl le = .ok (lr2c, []) →
      chatCompletionError status (Option.some (.dict kvs)) bodyText jl le =
        .apiError ("API error (" ++ toString status ++ "): " ++ pyStr ev) ∧
      StrContains ("API error (" ++ toString status ++ "): " ++ pyStr ev)
        (toString status)) := by
  refine ⟨?_, ?_, ?_, ?_⟩
  · intro hne
    have hlk := hasKey_false_lookup hne
    refine ⟨?_, strContains_status status _⟩
    simp [chatCompletionError, parseErrorData, pyContains, hnl, hne, finishParse,
      genericErrorMsg, pyGet, dictGet, hlk, pyStr, pyRepr, pyReprJoinKV, dictLookup]
  · intro hes hnest
    have hek := dictLookup_hasKey hes
    refine ⟨?_, strContains_status status _, strContains_suffix _ _⟩
    simp [chatCompletionError, parseErrorData, pyContains, hnl, hek, pyGet, dictGet,
      hes, pyStr, hnest, finishParse, genericErrorMsg]
  · intro he hnest hleg
    have hek := dictLookup_hasKey he
    simp only [dictGet] at hnest
    refine ⟨?_, strContains_status status _, ?_⟩
    · simp [chatCompletionError, parseErrorData, pyContains, hnl, hek, pyGet, dictGet,
        he, hnest, hleg, finishParse, genericErrorMsg]
    · intro ms hms
      have hgm : pyStr (dictGet eokvs "message" (.str (pyRepr (.dict eokvs)))) = ms := by
        simp [dictGet, hms, pyStr]
      rw [hgm]
      exact strContains_suffix _ _
  · intro hev hnd hns hnest
    have hek := dictLookup_hasKey hev
    refine ⟨?_, strContains_status status _⟩
    cases ev with
    | dict ekv => exact absurd rfl (hnd ekv)
    | str s => exact absurd rfl (hns s)
    | none =>
      simp [chatCompletionError, parseErrorData, pyContains, hnl, hek, pyGet, dictGet,
        hev, hnest, finishParse, genericErrorMsg]
    | bool b =>
      simp [chatCompletionError, parseErrorData, pyContains, hnl, hek, pyGet, dictGet,
        hev, hnest, finishParse, genericErrorMsg]
    | int n =>
      simp [chatCompletionError, parseErrorData, pyContains, hnl, hek, pyGet, dictGet,
        hev, hnest, finishParse, genericErrorMsg]
    | float q =>
      simp [chatCompletionError, parseErrorData, pyContains, hnl, hek, pyGet, dictGet,
        hev, hnest, finishParse, genericErrorMsg]
    | list xs =>
      simp [chatCompletionError, parseErrorData, pyContains, hnl, hek, pyGet, dictGet,
        hev, hnest, finishParse, genericErrorMsg]

/-- Witness for C4 (amended): the error-as-string scenario of the spec,
status 500 with body error field `"internal failure"`; the message carries
the code and the text. -/
theorem genericApiError_witness :
    chatCompletionError 500 (Option.some (.dict [("error", .str "internal failure")]))
      "t" (fun _ => Option.none) (fun _ => Option.none) =
      .apiError "API error (500): internal failure" ∧
    StrContains "API error (500): internal failure" "500" ∧
    StrContains "API error (500): internal failure" "internal failure" := by
  exact (genericApiError 500 [("error", .str "internal failure")] []
    PyVal.none "t" "internal failure" Option.none Option.none Option.none Option.none
    (fun _ => Option.none) (fun _ => Option.none)
    rfl).2.1 rfl rfl

/-- Counterexample to claim C6 as stated: a legacy-form body whose first
result carries `category_scores` still yields a raised error whose
`category_scores` field is empty — line 121 of `client.py` reads the scores
into a local that is never passed to the `GuardrailViolationError`
constructor at lines 126–130. -/
theorem legacyScoresDropped_counterexample :
    ∃ e, chatCompletionError 400 (Option.some (.dict [("error", .dict
      [("lakera_ai_response", .dict
        [("results", .list [.dict
          [("flagged", .bool true),
           ("categories", .dict [("hate", .bool true)]),
           ("category_scores", .dict [("hate", .float (49/50))])]])])])])) "t"
      (fun _ => Option.none) (fun _ => Option.none) = .guardrail e ∧
      e.violations = [.str "hate"] ∧ e.category_scores = [] := by
  exact ⟨⟨flaggedMsg, [.str "hate"], [], [], Option.some (.dict
    [("results", .list [.dict
      [("flagged", .bool true),
       ("categories", .dict [("hate", .bool true)]),
       ("category_scores", .dict [("hate", .float (49/50))])]])])⟩, rfl, rfl, rfl⟩

/-- Claim C6 (amended): for every legacy categorical body (an `error` mapping
with a `lakera_ai_response` whose first result is flagged — whether or not an
`error.message` entry exists, and whether or not `category_scores` is
present), the parser collects every truthy category key of the `categories`
mapping of the first result, in order, as the violation list, and raises a
`GuardrailViolationError` carrying those violations and the moderation
mapping; the parallel `category_scores` mapping, when present, is read but
not attached to the raised error, whose `category_scores` field stays empty.
The nested form yielding no violations (absent, undecodable, or benign
message) is the single `tryNestedForm` hypothesis. -/
theorem legacyFormExtraction (status : Nat)
    (kvs eokvs larkvs r0kvs catkvs : List (String × PyVal))
    (rs : List PyVal) (lr2 : Option PyVal) (bodyText : String)
    (jl le : String → Option PyVal)
    (hnl : hasKey kvs "lakera_guardrail_response" = false)
    (he : dictLookup kvs "error" = Option.some (.dict eokvs))
    (hv2 : tryNestedForm (dictGet eokvs "message" (.str "")) jl le = .ok (lr2, []))
    (hlar : dictLookup eokvs "lakera_ai_response" = Option.some (.dict larkvs))
    (hres : dictLookup larkvs "results" = Option.some (.list (PyVal.dict r0kvs :: rs)))
    (hfl : dictLookup r0kvs "flagged" = Option.some (.bool true))
    (hcat : dictLookup r0kvs "categories" = Option.some (.dict catkvs))
    (hcne : catkvs.filter (fun kv => pyTruthy kv.2) ≠ []) :
    chatCompletionError status (Option.some (.dict kvs)) bodyText jl le =
      .guardrail ⟨flaggedMsg,
        (catkvs.filter (fun kv => pyTruthy kv.2)).map (fun kv => PyVal.str kv.1),
        [], [], Option.some (.dict larkvs)⟩ := by
  have hek := dictLookup_hasKey he
  simp only [dictGet] at hv2
  have hlarne : larkvs ≠ [] := dictLookup_ne_nil hres
  have htr1 : pyTruthy (.dict larkvs) = true := by
    cases larkvs with
    | nil => exact absurd rfl hlarne
    | cons a as => rfl
  have htr2 : pyTruthy (.list (PyVal.dict r0kvs :: rs)) = true := rfl
  have htr3 : pyTruthy (.bool true) = true := rfl
  obtain ⟨c0, cs0, hcs⟩ : ∃ c0 cs0, catkvs.filter (fun kv => pyTruthy kv.2) = c0 :: cs0 := by
    cases h : catkvs.filter (fun kv => pyTruthy kv.2) with
    | nil => exact absurd h hcne
    | cons a as => exact ⟨a, as, rfl⟩
  simp [chatCompletionError, parseErrorData, pyContains, hnl, hek, pyGet, dictGet,
    he, hv2, tryLegacyForm, hlar, htr1, htr2, htr3, hres, pySubscriptZero,
    hfl, hcat, pyItems, hcs, finishParse, mkGuardrailError]

/-- Witness for C6 (amended): a message-free legacy body with two categories,
one flagged, and a parallel score; the raised error lists `hate`, carries the
moderation mapping, and its `category_scores` field is empty. -/
theorem legacyFormExtraction_witness :
    chatCompletionError 400 (Option.some (.dict [("error", .dict
      [("lakera_ai_response", .dict
        [("results", .list [.dict
          [("flagged", .bool true),
           ("categories", .dict [("hate", .bool true), ("ok", .bool false)]),
           ("category_scores", .dict [("hate", .float (49/50))])]])])])])) "t"
      (fun _ => Option.none) (fun _ => Option.none) =
      .guardrail ⟨flaggedMsg, [.str "hate"], [], [], Option.some (.dict
        [("results", .list [.dict
          [("flagged", .bool true),
           ("categories", .dict [("hate", .bool true), ("ok", .bool false)]),
           ("category_scores", .dict [("hate", .float (49/50))])]])])⟩ := by
  exact legacyFormExtraction 400
    [("error", .dict
      [("lakera_ai_response", .dict
        [("results", .list [.dict
          [("flagged", .bool true),
           ("categories", .dict [("hate", .bool true), ("ok", .bool false)]),
           ("category_scores", .dict [("hate", .float (49/50))])]])])])]
    [("lakera_ai_response", .dict
      [("results", .list [.dict
        [("flagged", .bool true),
         ("categories", .dict [("hate", .bool true), ("ok", .bool false)]),
         ("category_scores", .dict [("hate", .float (49/50))])]])])]
    [("results", .list [.dict
      [("flagged", .bool true),
       ("categories", .dict [("hate", .bool true), ("ok", .bool false)]),
       ("category_scores", .dict [("hate", .float (49/50))])]])]
    [("flagged", .bool true),
     ("categories", .dict [("hate", .bool true), ("ok", .bool false)]),
     ("category_scores", .dict [("hate", .float (49/50))])]
    [("hate", .bool true), ("ok", .bool false)]
    [] Option.none "t" (fun _ => Option.none) (fun _ => Option.none)
    rfl rfl rfl rfl rfl rfl rfl
    (by exact List.cons_ne_nil _ _)

/-- Claim C3: when `error.message` is a serialized form-(1) payload, parsing
it yields the same violation list as applying the direct form to the decoded
payload itself; and the JSON-decode path and the literal-decode path yield
equal results for equivalent content (two message strings decoding to the
same payload, the first via `json.loads`, the second only via
`ast.literal_eval`). -/
theorem nestedStringEquivalence (status : Nat)
    (kvs1 kvs2 eokvs1 eokvs2 pkvs lrkvs : List (String × PyVal)) (entries : List PyVal)
    (s1 s2 t1 t2 t3 : String) (jl le : String → Option PyVal)
    (h1k : hasKey kvs1 "lakera_guardrail_response" = false)
    (h2k : hasKey kvs2 "lakera_guardrail_response" = false)
    (h1e : dictLookup kvs1 "error" = Option.some (.dict eokvs1))
    (h2e : dictLookup kvs2 "error" = Option.some (.dict eokvs2))
    (h1m : dictLookup eokvs1 "message" = Option.some (.str s1))
    (h2m : dictLookup eokvs2 "message" = Option.some (.str s2))
    (hj1 : jl s1 = Option.some (.dict pkvs))
    (hj2 : jl s2 = Option.none) (hl2 : le s2 = Option.some (.dict pkvs))
    (hplr : dictLookup pkvs "lakera_guardrail_response" = Option.some (.dict lrkvs))
    (hbd : dictLookup lrkvs "breakdown" = Option.some (.list entries))
    (hwf : ∀ e ∈ entries, WFDetector e)
    (hne : specDirectViolations entries ≠ []) :
    chatCompletionError status (Option.some (.dict kvs1)) t1 jl le =
      .guardrail ⟨flaggedMsg, (specDirectViolations entries).map PyVal.str, [], [],
        Option.some (.dict lrkvs)⟩ ∧
    chatCompletionError status (Option.some (.dict kvs2)) t2 jl le =
      chatCompletionError status (Option.some (.dict kvs1)) t1 jl le ∧
    chatCompletionError status (Option.some (.dict pkvs)) t3 jl le =
      chatCompletionError status (Option.some (.dict kvs1)) t1 jl le := by
  have hpk := dictLookup_hasKey hplr
  have h1ek := dictLookup_hasKey h1e
  have h2ek := dictLookup_hasKey h2e
  have hpne : pkvs ≠ [] := dictLookup_ne_nil hplr
  have htrp : pyTruthy (.dict pkvs) = true := by
    cases pkvs with
    | nil => exact absurd rfl hpne
    | cons a as => rfl
  have hcb := collectBreakdown_wf entries hwf
  obtain ⟨v0, vs0, hsp⟩ : ∃ v0 vs0, specDirectViolations entries = v0 :: vs0 := by
    cases h : specDirectViolations entries with
    | nil => exact absurd h hne
    | cons a as => exact ⟨a, as, rfl⟩
  have base1 : chatCompletionError status (Option.some (.dict kvs1)) t1 jl le =
      .guardrail ⟨flaggedMsg, (specDirectViolations entries).map PyVal.str, [], [],
        Option.some (.dict lrkvs)⟩ := by
    simp [chatCompletionError, parseErrorData, tryNestedForm, pyContains, h1k, h1ek,
      pyGet, dictGet, h1e, h1m, hj1, htrp, isDict, hpk, hplr,
      extractViolationsFromLakera, hbd, pyIter, hcb, hsp, finishParse, mkGuardrailError]
  have base2 : chatCompletionError status (Option.some (.dict kvs2)) t2 jl le =
      .guardrail ⟨flaggedMsg, (specDirectViolations entries).map PyVal.str, [], [],
        Option.some (.dict lrkvs)⟩ := by
    simp [chatCompletionError, parseErrorData, tryNestedForm, pyContains, h2k, h2ek,
      pyGet, dictGet, h2e, h2m, hj2, hl2, htrp, isDict, hpk, hplr,
      extractViolationsFromLakera, hbd, pyIter, hcb, hsp, finishParse, mkGuardrailError]
  have basep : chatCompletionError status (Option.some (.dict pkvs)) t3 jl le =
      .guardrail ⟨flaggedMsg, (specDirectViolations entries).map PyVal.str, [], [],
        Option.some (.dict lrkvs)⟩ := by
    simp [chatCompletionError, parseErrorData, pyContains, hpk, pyGet, dictGet, hplr,
      extractViolationsFromLakera, hbd, pyIter, hcb, hsp, finishParse, mkGuardrailError]
  exact ⟨base1, base2.trans base1.symm, basep.trans base1.symm⟩

/-- Witness for C3: the scenario payload of the spec reachable through a
JSON-decoding message, a literal-only-decoding message, and directly; all
three give the same guardrail verdict. -/
theorem nestedStringEquivalence_witness :
    chatCompletionError 400 (Option.some (.dict [("error", .dict [("message", .str "J")])]))
      "t1"
      (fun s => if s = "J" then Option.some (.dict [("lakera_guardrail_response", .dict
        [("breakdown", .list
          [.dict [("detector_type", .str "prompt_attack"), ("detected", .bool true)]])])])
        else Option.none)
      (fun s => if s = "L" then Option.some (.dict [("lakera_guardrail_response", .dict
        [("breakdown", .list
          [.dict [("detector_type", .str "prompt_attack"), ("detected", .bool true)]])])])
        else Option.none) =
      .guardrail ⟨flaggedMsg, [.str "prompt_attack"], [], [], Option.some (.dict
        [("breakdown", .list
          [.dict [("detector_type", .str "prompt_attack"), ("detected", .bool true)]])])⟩ ∧
    chatCompletionError 400 (Option.some (.dict [("error", .dict [("message", .str "L")])]))
      "t2"
      (fun s => if s = "J" then Option.some (.dict [("lakera_guardrail_response", .dict
        [("breakdown", .list
          [.dict [("detector_type", .str "prompt_attack"), ("detected", .bool true)]])])])
        else Option.none)
      (fun s => if s = "L" then Option.some (.dict [("lakera_guardrail_response", .dict
        [("breakdown", .list
          [.dict [("detector_type", .str "prompt_attack"), ("detected", .bool true)]])])])
        else Option.none) =
      chatCompletionError 400 (Option.some (.dict [("error", .dict [("message", .str "J")])]))
      "t1"
      (fun s => if s = "J" then Option.some (.dict [("lakera_guardrail_response", .dict
        [("breakdown", .list
          [.dict [("detector_type", .str "prompt_attack"), ("detected", .bool true)]])])])
        else Option.none)
      (fun s => if s = "L" then Option.some (.dict [("lakera_guardrail_response", .dict
        [("breakdown", .list
          [.dict [("detector_type", .str "prompt_attack"), ("detected", .bool true)]])])])
        else Option.none) ∧
    chatCompletionError 400 (Option.some (.dict [("lakera_guardrail_response", .dict
      [("breakdown", .list
        [.dict [("detector_type", .str "prompt_attack"), ("detected", .bool true)]])])]))
      "t3"
      (fun s => if s = "J" then Option.some (.dict [("lakera_guardrail_response", .dict
        [("breakdown", .list
          [.dict [("detector_type", .str "prompt_attack"), ("detected", .bool true)]])])])
        else Option.none)
      (fun s => if s = "L" then Option.some (.dict [("lakera_guardrail_response", .dict
        [("breakdown", .list
          [.dict [("detector_type", .str "prompt_attack"), ("detected", .bool true)]])])])
        else Option.none) =
      chatCompletionError 400 (Option.some (.dict [("error", .dict [("message", .str "J")])]))
      "t1"
      (fun s => if s = "J" then Option.some (.dict [("lakera_guardrail_response", .dict
        [("breakdown", .list
          [.dict [("detector_type", .str "prompt_attack"), ("detected", .bool true)]])])])
        else Option.none)
      (fun s => if s = "L" then Option.some (.dict [("lakera_guardrail_response", .dict
        [("breakdown", .list
          [.dict [("detector_type", .str "prompt_attack"), ("detected", .bool true)]])])])
        else Option.none) := by
  exact nestedStringEquivalence 400
    [("error", .dict [("message", .str "J")])]
    [("error", .dict [("message", .str "L")])]
    [("message", .str "J")]
    [("message", .str "L")]
    [("lakera_guardrail_response", .dict
      [("breakdown", .list
        [.dict [("detector_type", .str "prompt_attack"), ("detected", .bool true)]])])]
    [("breakdown", .list
      [.dict [("detector_type", .str "prompt_attack"), ("detected", .bool true)]])]
    [.dict [("detector_type", .str "prompt_attack"), ("detected", .bool true)]]
    "J" "L" "t1" "t2" "t3"
    (fun s => if s = "J" then Option.some (.dict [("lakera_guardrail_response", .dict
      [("breakdown", .list
        [.dict [("detector_type", .str "prompt_attack"), ("detected", .bool true)]])])])
      else Option.none)
    (fun s => if s = "L" then Option.some (.dict [("lakera_guardrail_response", .dict
      [("breakdown", .list
        [.dict [("detector_type", .str "prompt_attack"), ("detected", .bool true)]])])])
      else Option.none)
    rfl rfl rfl rfl rfl rfl rfl rfl rfl rfl rfl
    (by
      intro e he
      simp only [List.mem_cons, List.not_mem_nil, or_false] at he
      rcases he with rfl
      exact ⟨_, true, "prompt_attack", rfl, rfl, rfl⟩)
    (by decide)

/-- The `__str__` loop on string violations with float scores never raises,
and its output contains the display name of every violation and, when a score is
recorded for a violation, its formatted confidence. -/
theorem renderViolLines_props (scores : List (String × PyVal)) (vl : List PyVal)
    (hv : ∀ v ∈ vl, ∃ s, v = PyVal.str s)
    (hs : ∀ kv ∈ scores, ∃ q, kv.2 = PyVal.float q) :
    ∃ L, renderViolLines scores vl = .ok L ∧
      (∀ s, PyVal.str s ∈ vl → StrContains L (formatViolationName s)) ∧
      (∀ s q, PyVal.str s ∈ vl → dictLookup scores s = Option.some (.float q) →
        StrContains L (" (confidence: " ++ formatPercent q ++ ")")) := by
  induction vl with
  | nil => exact ⟨"", rfl, by simp, by simp⟩
  | cons v vs ih =>
    obtain ⟨L', hL', hname', hconf'⟩ := ih (fun w hw => hv w (List.mem_cons_of_mem _ hw))
    obtain ⟨s0, rfl⟩ := hv _ (List.mem_cons_self _ _)
    cases hsc : scores.isEmpty with
    | true =>
      have hscn : scores = [] := by
        cases scores with
        | nil => rfl
        | cons a as => simp at hsc
      refine ⟨"\n  • " ++ formatViolationName s0 ++ L', ?_, ?_, ?_⟩
      · simp [renderViolLines, pyFormatViolationName, hsc, hL']
      · intro s hm
        rcases List.mem_cons.mp hm with heq | hmem
        · obtain rfl : s0 = s := by
            injection heq with h0
            exact h0.symm
          apply strContains_of_data "\n  • ".data L'.data
          simp [strData_append]
        · exact strContains_append_right _ (hname' s hmem)
      · intro s q hm hlook
        subst hscn
        simp [dictLookup] at hlook
    | false =>
      cases hlook0 : dictLookup scores s0 with
      | none =>
        refine ⟨"\n  • " ++ formatViolationName s0 ++ L', ?_, ?_, ?_⟩
        · simp [renderViolLines, pyFormatViolationName, hsc, scoreFor, hlook0, hL']
        · intro s hm
          rcases List.mem_cons.mp hm with heq | hmem
          · injection heq with h0
            subst h0
            apply strContains_of_data "\n  • ".data L'.data
            simp [strData_append]
          · exact strContains_append_right _ (hname' s hmem)
        · intro s q hm hlook
          rcases List.mem_cons.mp hm with heq | hmem
          · injection heq with h0
            subst h0
            rw [hlook0] at hlook
            cases hlook
          · exact strContains_append_right _ (hconf' s q hmem hlook)
      | some sv =>
        obtain ⟨q0, rfl⟩ : ∃ q0, sv = PyVal.float q0 := by
          obtain ⟨q0, hq0⟩ := hs (s0, sv) (dictLookup_mem hlook0)
          exact ⟨q0, hq0⟩
        refine ⟨"\n  • " ++ formatViolationName s0 ++ " (confidence: " ++
          formatPercent q0 ++ ")" ++ L', ?_, ?_, ?_⟩
        · simp [renderViolLines, pyFormatViolationName, hsc, scoreFor, hlook0,
            formatPercentVal, hL']
        · intro s hm
          rcases List.mem_cons.mp hm with heq | hmem
          · injection heq with h0
            subst h0
            apply strContains_of_data "\n  • ".data
              (" (confidence: ".data ++ (formatPercent q0).data ++ ")".data ++ L'.data)
            simp [strData_append]
          · exact strContains_append_right _ (hname' s hmem)
        · intro s q hm hlook
          rcases List.mem_cons.mp hm with heq | hmem
          · injection heq with h0
            subst h0
            rw [hlook0] at hlook
            obtain rfl : q0 = q := by
              injection hlook with h1
              injection h1 with h2
            apply strContains_of_data ("\n  • ".data ++ (formatViolationName s).data)
              L'.data
            simp [strData_append]
          · exact strContains_append_right _ (hconf' s q hmem hlook)

/-- Claim C7: for every `GuardrailViolationError` with a non-empty violation
list (of string codes, with float scores), the rendered `__str__` message
contains the display name of each violation (the fixed `VIOLATION_NAMES` entry for
known codes, the separator-replaced title-cased form for unknown codes, as
computed by `formatViolationName`), appends the one-decimal percentage
whenever a score is recorded for that code, and ends with the fixed
remediation sentence. -/
theorem renderGuardrailMessage (e : GuardrailViolationError)
    (hne : e.violations ≠ [])
    (hv : ∀ v ∈ e.violations, ∃ s, v = PyVal.str s)
    (hs : ∀ kv ∈ e.category_scores, ∃ q, kv.2 = PyVal.float q) :
    ∃ m, guardrailStr e = .ok m ∧
      (∀ s, PyVal.str s ∈ e.violations → StrContains m (formatViolationName s)) ∧
      (∀ s q, PyVal.str s ∈ e.violations →
        dictLookup e.category_scores s = Option.some (.float q) →
        StrContains m (" (confidence: " ++ formatPercent q ++ ")")) ∧
      StrEndsWith m remediation := by
  obtain ⟨L, hL, hname, hconf⟩ := renderViolLines_props e.category_scores e.violations hv hs
  have hvne : e.violations.isEmpty = false := by
    cases h : e.violations with
    | nil => exact absurd h hne
    | cons a as => rfl
  refine ⟨e.message ++ ("\n\nDetected policy violations:" ++ L) ++ remediation,
    ?_, ?_, ?_, ?_⟩
  · simp [guardrailStr, hvne, hL]
  · intro s hm
    exact strContains_append_left _
      (strContains_append_right _ (strContains_append_right _ (hname s hm)))
  · intro s q hm hlook
    exact strContains_append_left _
      (strContains_append_right _ (strContains_append_right _ (hconf s q hm hlook)))
  · exact strEndsWith_append _ _

/-- Witness for C7: one known code (`pii/email`, with a 98% score) and one
unknown code (`zzz_mark/x`, no score). -/
theorem renderGuardrailMessage_witness :
    ∃ m, guardrailStr ⟨flaggedMsg, [.str "pii/email", .str "zzz_mark/x"], [],
        [("pii/email", .float (49/50))], Option.none⟩ = .ok m ∧
      (∀ s, PyVal.str s ∈ ([.str "pii/email", .str "zzz_mark/x"] : List PyVal) →
        StrContains m (formatViolationName s)) ∧
      (∀ s q, PyVal.str s ∈ ([.str "pii/email", .str "zzz_mark/x"] : List PyVal) →
        dictLookup [("pii/email", .float (49/50))] s = Option.some (.float q) →
        StrContains m (" (confidence: " ++ formatPercent q ++ ")")) ∧
      StrEndsWith m remediation := by
  exact renderGuardrailMessage
    ⟨flaggedMsg, [.str "pii/email", .str "zzz_mark/x"], [],
      [("pii/email", .float (49/50))], Option.none⟩
    (List.cons_ne_nil _ _)
    (by
      intro v hv
      simp only [List.mem_cons, List.not_mem_nil, or_false] at hv
      rcases hv with rfl | rfl
      · exact ⟨"pii/email", rfl⟩
      · exact ⟨"zzz_mark/x", rfl⟩)
    (by
      intro kv hkv
      simp only [List.mem_cons, List.not_mem_nil, or_false] at hkv
      rcases hkv with rfl
      exact ⟨49/50, rfl⟩)
